import Mathlib

/-
Shallow embedding of the IA-expansion keyword pipeline
(src/functions.py and src/main_analyzer.py).

Strings are modelled as Lean String; character-level operations are
implemented over List Char so that every definition is executable and
kernel-reducible.  The urllib.parse behaviour used by clean_url is
modelled for http(s)-style URLs: scheme detection, authority after a
double slash, fragment split at the first hash, query split at the
first question mark.  The params component (semicolon parameters of
the last path segment) is modelled as always empty; no URL handled by
the pipeline or by the theorems below contains a semicolon.
-/

def isPrefixOfL : List Char → List Char → Bool
  | [], _ => true
  | _ :: _, [] => false
  | a :: as, b :: bs => a == b && isPrefixOfL as bs

def containsL : List Char → List Char → Bool
  | [], sub => sub.isEmpty
  | s@(_ :: rest), sub => isPrefixOfL sub s || containsL rest sub

/-- Python str.startswith on whole strings. -/
def strStartsWith (s pre : String) : Bool := isPrefixOfL pre.data s.data

/-- Python substring membership test, sub in s. -/
def strHasSub (s sub : String) : Bool := containsL s.data sub.data

def lowerChar (c : Char) : Char :=
  if 'A' ≤ c ∧ c ≤ 'Z' then Char.ofNat (c.toNat + 32) else c

def schemeChar (c : Char) : Bool :=
  c.isAlpha || c.isDigit || c == '+' || c == '-' || c == '.'

def splitAtFirst (sep : Char) : List Char → Option (List Char × List Char)
  | [] => none
  | c :: cs =>
    if c = sep then some ([], cs)
    else
      match splitAtFirst sep cs with
      | some (l, r) => some (c :: l, r)
      | none => none

def netlocSplit : List Char → List Char × List Char
  | [] => ([], [])
  | c :: cs =>
    if c = '/' ∨ c = '?' ∨ c = '#' then ([], c :: cs)
    else
      let (n, r) := netlocSplit cs
      (c :: n, r)

structure UrlParts where
  scheme : List Char
  netloc : List Char
  path : List Char
  query : List Char
  fragment : List Char
deriving DecidableEq

/-- Model of urllib.parse scheme extraction: the text before the first
colon is the scheme when it is nonempty, begins with a letter and
consists of scheme characters; it is lowercased. -/
def parseScheme (s : List Char) : List Char × List Char :=
  match splitAtFirst ':' s with
  | some (before, after) =>
    if before ≠ [] ∧ (before.headD ' ').isAlpha ∧ before.all schemeChar then
      (before.map lowerChar, after)
    else ([], s)
  | none => ([], s)

/-- Model of urllib.parse.urlparse for http(s)-style URLs. -/
def urlparseL (s : List Char) : UrlParts :=
  let (scheme, rest) := parseScheme s
  let (netloc, rest) :=
    if isPrefixOfL ['/', '/'] rest then netlocSplit (rest.drop 2) else ([], rest)
  let (rest, fragment) :=
    match splitAtFirst '#' rest with
    | some (a, b) => (a, b)
    | none => (rest, [])
  let (path, query) :=
    match splitAtFirst '?' rest with
    | some (a, b) => (a, b)
    | none => (rest, [])
  { scheme := scheme, netloc := netloc, path := path, query := query, fragment := fragment }

/-- Model of urllib.parse.urlunparse for components whose params, query
and fragment are empty or present as recorded. -/
def urlunparseL (p : UrlParts) : List Char :=
  let url := p.path
  let url :=
    if p.netloc ≠ [] ∨ isPrefixOfL ['/', '/'] url then
      ['/', '/'] ++ p.netloc ++ (if url ≠ [] ∧ ¬ isPrefixOfL ['/'] url then '/' :: url else url)
    else url
  let url := if p.scheme ≠ [] then p.scheme ++ ':' :: url else url
  let url := if p.query ≠ [] then url ++ '?' :: p.query else url
  if p.fragment ≠ [] then url ++ '#' :: p.fragment else url

-- Configuration constants from src/main_analyzer.py.

def TARGET_SITE : String := "fatshackvintage.com.au"

def TARGET_SITE_URL_BASE : String := "https://www.fatshackvintage.com.au/"

def KNOWN_PLP_PATHS : List String :=
  ["https://www.fatshackvintage.com.au/shop-by-category/",
   "https://www.fatshackvintage.com.au/shop-all-products/",
   "https://www.fatshackvintage.com.au/shop-all/",
   "https://www.fatshackvintage.com.au/collections"]

def KNOWN_PDP_PATHS : List String :=
  ["https://www.fatshackvintage.com.au/products/"]

def KNOWN_IRRELEVANT_PATHS : List String :=
  ["https://www.fatshackvintage.com.au/articles/",
   "https://www.fatshackvintage.com.au/help/",
   "https://www.fatshackvintage.com.au/about-us/",
   "https://www.fatshackvintage.com.au/contact-us/",
   "https://www.fatshackvintage.com.au/"]

/-- Embedding of clean_url from src/main_analyzer.py.  The Python
function returns None for non-string input and on a parsing exception;
for every actual string input of the pipeline the try branch succeeds,
so the model always returns some. -/
def clean_url (url : String) : Option String :=
  let parsed := urlparseL url.data
  let scheme := if parsed.scheme ≠ [] then parsed.scheme else "https".data
  let netloc := if parsed.netloc ≠ [] then parsed.netloc else TARGET_SITE.data
  let path0 := if isPrefixOfL ['/'] parsed.path then parsed.path else '/' :: parsed.path
  let path := if path0 = ['/'] then [] else path0
  some (String.mk (urlunparseL
    { scheme := scheme, netloc := netloc, path := path, query := [], fragment := [] }))

/-- Body of classify_url after the irrelevant checks fell through:
the Known PLP, Known PDP and Unknown cases. -/
def classifyNonIrrelevant (cleaned_url : String) (known_plps_from_csv : List String) : String :=
  if cleaned_url ∈ known_plps_from_csv then "Known PLP"
  else if (KNOWN_PLP_PATHS.any fun path => strStartsWith cleaned_url path) &&
          !(strHasSub cleaned_url "/collections/" && strHasSub cleaned_url "/products/") then
    "Known PLP"
  else if (KNOWN_PDP_PATHS.any fun path => strStartsWith cleaned_url path) ||
          strHasSub cleaned_url "/products/" then
    "Known PDP"
  else "Unknown"

/-- Classification of an already-cleaned URL: the body of classify_url
from src/main_analyzer.py after its internal clean_url call. -/
def classifyCleaned (cleaned_url : String) (known_plps_from_csv : List String) : String :=
  if KNOWN_IRRELEVANT_PATHS.any (fun path => strStartsWith cleaned_url path) then
    if cleaned_url = TARGET_SITE_URL_BASE then "Irrelevant"
    else if (KNOWN_IRRELEVANT_PATHS.filter (fun path => path ≠ TARGET_SITE_URL_BASE)).any
              (fun path => strStartsWith cleaned_url path && decide (path.length < cleaned_url.length)) then
      "Irrelevant"
    else if KNOWN_IRRELEVANT_PATHS.any (fun path => cleaned_url = path) then "Irrelevant"
    else classifyNonIrrelevant cleaned_url known_plps_from_csv
  else classifyNonIrrelevant cleaned_url known_plps_from_csv

/-- Embedding of classify_url from src/main_analyzer.py. -/
def classify_url (url : String) (known_plps_from_csv : List String) : String :=
  match clean_url url with
  | none => "Unknown"
  | some cleaned_url =>
    if cleaned_url = "" then "Unknown"
    else classifyCleaned cleaned_url known_plps_from_csv

-- The four classification buckets built in step 2 of analyze_keywords.

structure Buckets where
  knownPLP : List String
  knownPDP : List String
  irrelevant : List String
  unknown : List String
deriving DecidableEq

def emptyBuckets : Buckets := ⟨[], [], [], []⟩

/-- Flattening of the bucket dictionary in Python insertion order,
modelling the list comprehension over classified_urls.values(). -/
def bucketsAll (b : Buckets) : List String :=
  b.knownPLP ++ b.knownPDP ++ b.irrelevant ++ b.unknown

/-- Appends a cleaned URL to the bucket named by page_type.  The
classifier only produces the four bucket names, so the final branch is
reached exactly for the Unknown name. -/
def bucketsInsert (b : Buckets) (page_type : String) (u : String) : Buckets :=
  if page_type = "Known PLP" then { b with knownPLP := b.knownPLP ++ [u] }
  else if page_type = "Known PDP" then { b with knownPDP := b.knownPDP ++ [u] }
  else if page_type = "Irrelevant" then { b with irrelevant := b.irrelevant ++ [u] }
  else { b with unknown := b.unknown ++ [u] }

/-- Classification loop of step 2 of analyze_keywords: clean each
ranking URL, skip it when cleaning fails or when the cleaned form was
already placed, otherwise append it to the bucket of its
classification. -/
def classifyLoop (known_plps_list : List String) : List String → Buckets → Buckets
  | [], b => b
  | url :: rest, b =>
    match clean_url url with
    | none => classifyLoop known_plps_list rest b
    | some cleaned =>
      if cleaned = "" then classifyLoop known_plps_list rest b
      else
        let page_type := classify_url cleaned known_plps_list
        if cleaned ∈ bucketsAll b then classifyLoop known_plps_list rest b
        else classifyLoop known_plps_list rest (bucketsInsert b page_type cleaned)

def classifyBuckets (urls : List String) (known_plps_list : List String) : Buckets :=
  classifyLoop known_plps_list urls emptyBuckets

-- Firecrawl boundary (src/functions.py).

/-- Raw dictionary payloads are modelled as association lists from
string keys to string values. -/
abbrev RawDict := List (String × String)

/-- Python dict .get with default None. -/
def dictGet (d : RawDict) (k : String) : Option String :=
  (d.find? fun p => p.1 == k).map (fun p => p.2)

/-- Outcome of one Firecrawl extract API interaction, the input that
determines the return value of the helper in src/functions.py: an
exception during the call, a missing API key, a recognized response
carrying an error flag and an optional data dictionary, or an
unrecognized response shape. -/
inductive FirecrawlOutcome where
  | exn : FirecrawlOutcome
  | noKey : FirecrawlOutcome
  | responseData (hasError : Bool) (data : Option RawDict) : FirecrawlOutcome
  | unrecognized : FirecrawlOutcome
deriving DecidableEq

/-- Embedding of the private Firecrawl helper of src/functions.py: any
exception, missing key, error field, missing or empty data dictionary
yields None; otherwise the data dictionary is returned. -/
def callFirecrawlExtract : FirecrawlOutcome → Option RawDict
  | .exn => none
  | .noKey => none
  | .unrecognized => none
  | .responseData hasError data =>
    if hasError then none
    else
      match data with
      | some d => if d.isEmpty then none else some d
      | none => none

/-- Embedding of assess_category_page_relevance from src/functions.py,
applied to the helper result: the payload is kept when both the
Relevant and the Analysis keys are present. -/
def assess_category_page_relevance (raw : Option RawDict) : Option RawDict :=
  match raw with
  | some d =>
    if (dictGet d "Relevant").isSome ∧ (dictGet d "Analysis").isSome then some d else none
  | none => none

/-- Embedding of assess_product_page_relevance from src/functions.py:
the payload is kept when both the Relevance and the Analysis keys are
present. -/
def assess_product_page_relevance (raw : Option RawDict) : Option RawDict :=
  match raw with
  | some d =>
    if (dictGet d "Relevance").isSome ∧ (dictGet d "Analysis").isSome then some d else none
  | none => none

def allowed_types : List String := ["PLP", "PDP", "Brand Page", "Article", "Other"]

def allowed_relevance : List String :=
  ["Closely Related", "Loosely Related", "Unrelated", "Related", "N/A"]

/-- Embedding of classify_and_assess_url from src/functions.py: the
payload is kept when the three keys are present, the determined_type
lies in allowed_types and the relevance lies in allowed_relevance.
The relevance check uses the union of both verdict scales and is not
conditioned on the determined type. -/
def classify_and_assess_url (raw : Option RawDict) : Option RawDict :=
  match raw with
  | some d =>
    match dictGet d "determined_type", dictGet d "relevance", dictGet d "analysis" with
    | some dt, some rel, some _ =>
      if dt ∈ allowed_types ∧ rel ∈ allowed_relevance then some d else none
    | _, _, _ => none
  | none => none

-- SerpApi boundary (src/functions.py).

/-- One entry of the organic_results array of the SerpApi response. -/
structure SerpEntry where
  link : Option String
  snippet : Option String
deriving DecidableEq

/-- Outcome of the SerpApi HTTP interaction for one keyword: a parsed
response, a requests.exceptions.RequestException, or any other
exception. -/
inductive SerpResponse where
  | ok (raw_html_file : Option String) (organic_results : List SerpEntry) : SerpResponse
  | requestException : SerpResponse
  | otherException : SerpResponse
deriving DecidableEq

/-- A row of the ranking DataFrame: Position, Ranking URL, Snippet. -/
abbrev RankedRow := Nat × String × Option String

/-- Construction of ranking_data in get_organic_results: enumerate the
organic results, keep entries whose link is truthy, with one-based
positions taken from the enumeration of the full list. -/
def buildRankingData (results : List SerpEntry) : List RankedRow :=
  results.enum.filterMap fun p =>
    match p.2.link with
    | some l => if l ≠ "" then some (p.1 + 1, l, p.2.snippet) else none
    | none => none

/-- A Python return value of get_organic_results including its arity:
the success path returns two values, every failure path returns
three. -/
inductive PyRet where
  | pair (raw_html_file : Option String) (df : List RankedRow) : PyRet
  | triple (a : Option String) (df : List RankedRow) (c : Option String) : PyRet
deriving DecidableEq

/-- Embedding of get_organic_results from src/functions.py.  The
request construction (site path cleaning and ampersand replacement) is
part of the HTTP call abstracted into the SerpResponse input.  Note
the arity mismatch of the source: failure paths return a 3-tuple while
the success path returns a 2-tuple. -/
def get_organic_results (apiKeyPresent : Bool) (resp : SerpResponse) : PyRet :=
  if ¬ apiKeyPresent then PyRet.triple none [] none
  else
    match resp with
    | .ok raw_html_file organic_results => PyRet.pair raw_html_file (buildRankingData organic_results)
    | .requestException => PyRet.triple none [] none
    | .otherException => PyRet.triple none [] none

inductive PyError where
  | valueErrorTooManyValues : PyError
deriving DecidableEq

/-- Tuple unpacking into exactly two variables, as performed by the
caller in analyze_keywords: a 3-tuple raises ValueError. -/
def unpack2 : PyRet → Except PyError (Option String × List RankedRow)
  | .pair a b => Except.ok (a, b)
  | .triple _ _ _ => Except.error PyError.valueErrorTooManyValues

-- Decision pipeline (analyze_keywords in src/main_analyzer.py).

/-- Failure marker stored for a Known PLP whose assessment call
failed. -/
def plpFailDict : RawDict :=
  [("Relevant", "Assessment Failed"), ("Analysis", "API call failed.")]

/-- Failure marker stored for a Known PDP whose assessment call
failed. -/
def pdpFailDict : RawDict :=
  [("Relevance", "Assessment Failed"), ("Analysis", "API call failed.")]

/-- Failure marker stored for an Unknown URL whose combined
classification and assessment call failed. -/
def unkFailDict : RawDict :=
  [("determined_type", "Error"), ("relevance", "Error"), ("analysis", "API call failed.")]

/-- Running state of stage 3, the Known PLP assessment loop.  The
calls field is verification instrumentation recording each URL for
which the relevance provider was invoked; the other fields embed the
local variables of analyze_keywords. -/
structure PLPState where
  assessments : List (String × RawDict)
  found_closely : Bool
  best : Option String
  calls : List String
deriving DecidableEq

def plpInit : PLPState := ⟨[], false, none, []⟩

/-- Validated provider result for one Known PLP URL, as seen by the
stage 3 loop body. -/
def plpResult (oc : String → String → FirecrawlOutcome) (keyword url : String) : Option RawDict :=
  assess_category_page_relevance (callFirecrawlExtract (oc keyword url))

/-- Evidence update of one stage 3 iteration over its validated
result. -/
def plpStep (st : PLPState) (url : String) (result : Option RawDict) : PLPState :=
  match result with
  | some d =>
    let st := { st with assessments := st.assessments ++ [(url, d)] }
    let relevance := dictGet d "Relevant"
    if relevance = some "Closely Related" then
      { st with found_closely := true, best := some "Closely Related" }
    else if relevance = some "Loosely Related" then { st with best := some "Loosely Related" }
    else if st.best = none then { st with best := some "Unrelated" }
    else st
  | none =>
    let st := { st with assessments := st.assessments ++ [(url, plpFailDict)] }
    if st.best = none then { st with best := some "Unrelated" } else st

/-- The stage 3 break condition: the iteration stops right after a
Closely Related verdict. -/
def plpBreak : Option RawDict → Bool
  | some d => dictGet d "Relevant" == some "Closely Related"
  | none => false

/-- One full stage 3 iteration: record the provider call, then update
the evidence. -/
def plpIter (oc : String → String → FirecrawlOutcome) (keyword : String)
    (st : PLPState) (url : String) : PLPState :=
  plpStep { st with calls := st.calls ++ [url] } url (plpResult oc keyword url)

/-- Stage 3 of analyze_keywords: iterate the Known PLP bucket, break
on the first Closely Related verdict. -/
def plpLoop (oc : String → String → FirecrawlOutcome) (keyword : String) :
    PLPState → List String → PLPState
  | st, [] => st
  | st, url :: rest =>
    let st' := plpIter oc keyword st url
    if plpBreak (plpResult oc keyword url) then st' else plpLoop oc keyword st' rest

/-- Mirror of plpLoop returning the state after each processed URL, in
order; used to formalize properties of every intermediate state. -/
def plpStates (oc : String → String → FirecrawlOutcome) (keyword : String) :
    PLPState → List String → List PLPState
  | _, [] => []
  | st, url :: rest =>
    let st' := plpIter oc keyword st url
    st' :: (if plpBreak (plpResult oc keyword url) then [] else plpStates oc keyword st' rest)

/-- Running state of stage 4, the Unknown URL assessment loop. -/
structure UnkState where
  assessments : List (String × RawDict)
  ai_plps : List (String × RawDict)
  ai_pdps : List (String × RawDict)
  found_closely : Bool
  best : Option String
  found_related_pdp : Bool
  calls : List String
deriving DecidableEq

/-- Stage 4 starts from the stage 3 evidence with found_related_pdp
still at its initial false. -/
def unkInit (s3 : PLPState) : UnkState :=
  ⟨[], [], [], s3.found_closely, s3.best, false, []⟩

/-- Validated provider result for one Unknown URL. -/
def unkResult (oc : String → String → FirecrawlOutcome) (keyword url : String) : Option RawDict :=
  classify_and_assess_url (callFirecrawlExtract (oc keyword url))

/-- Evidence update of one stage 4 iteration over its validated
result. -/
def unkStep (st : UnkState) (url : String) (result : Option RawDict) : UnkState :=
  match result with
  | some d =>
    let st := { st with assessments := st.assessments ++ [(url, d)] }
    let determined_type := dictGet d "determined_type"
    let relevance := dictGet d "relevance"
    if determined_type = some "PLP" ∨ determined_type = some "Brand Page" then
      let st := { st with ai_plps := st.ai_plps ++ [(url, d)] }
      if relevance = some "Closely Related" then
        { st with best := some "Closely Related", found_closely := true }
      else if relevance = some "Loosely Related" ∧ st.best ≠ some "Closely Related" then
        { st with best := some "Loosely Related" }
      else if relevance = some "Unrelated" ∧ st.best = none then
        { st with best := some "Unrelated" }
      else st
    else if determined_type = some "PDP" then
      let st := { st with ai_pdps := st.ai_pdps ++ [(url, d)] }
      if relevance = some "Related" then { st with found_related_pdp := true } else st
    else st
  | none => { st with assessments := st.assessments ++ [(url, unkFailDict)] }

/-- The stage 4 break condition: a result typed PLP or Brand Page with
a Closely Related relevance stops the iteration. -/
def unkBreak : Option RawDict → Bool
  | some d =>
    (dictGet d "determined_type" == some "PLP" || dictGet d "determined_type" == some "Brand Page")
      && dictGet d "relevance" == some "Closely Related"
  | none => false

/-- One full stage 4 iteration. -/
def unkIter (oc : String → String → FirecrawlOutcome) (keyword : String)
    (st : UnkState) (url : String) : UnkState :=
  unkStep { st with calls := st.calls ++ [url] } url (unkResult oc keyword url)

/-- Stage 4 of analyze_keywords: iterate the Unknown bucket, break on
the first Closely Related PLP or Brand Page verdict. -/
def unkLoop (oc : String → String → FirecrawlOutcome) (keyword : String) :
    UnkState → List String → UnkState
  | st, [] => st
  | st, url :: rest =>
    let st' := unkIter oc keyword st url
    if unkBreak (unkResult oc keyword url) then st' else unkLoop oc keyword st' rest

/-- Mirror of unkLoop returning the state after each processed URL. -/
def unkStates (oc : String → String → FirecrawlOutcome) (keyword : String) :
    UnkState → List String → List UnkState
  | _, [] => []
  | st, url :: rest =>
    let st' := unkIter oc keyword st url
    st' :: (if unkBreak (unkResult oc keyword url) then [] else unkStates oc keyword st' rest)

/-- Running state of stage 5, the Known PDP assessment loop. -/
structure PDPState where
  assessments : List (String × RawDict)
  found_related_pdp : Bool
  calls : List String
deriving DecidableEq

def pdpInit (found_related_pdp : Bool) : PDPState := ⟨[], found_related_pdp, []⟩

/-- Validated provider result for one Known PDP URL. -/
def pdpResult (oc : String → String → FirecrawlOutcome) (keyword url : String) : Option RawDict :=
  assess_product_page_relevance (callFirecrawlExtract (oc keyword url))

/-- Evidence update of one stage 5 iteration. -/
def pdpStep (st : PDPState) (url : String) (result : Option RawDict) : PDPState :=
  match result with
  | some d =>
    let st := { st with assessments := st.assessments ++ [(url, d)] }
    if dictGet d "Relevance" = some "Related" then { st with found_related_pdp := true } else st
  | none => { st with assessments := st.assessments ++ [(url, pdpFailDict)] }

/-- One full stage 5 iteration. -/
def pdpIter (oc : String → String → FirecrawlOutcome) (keyword : String)
    (st : PDPState) (url : String) : PDPState :=
  pdpStep { st with calls := st.calls ++ [url] } url (pdpResult oc keyword url)

/-- Stage 5 of analyze_keywords: iterate the whole Known PDP bucket,
with no early exit. -/
def pdpLoop (oc : String → String → FirecrawlOutcome) (keyword : String) :
    PDPState → List String → PDPState
  | st, [] => st
  | st, url :: rest => pdpLoop oc keyword (pdpIter oc keyword st url) rest

/-- Stage 6 of analyze_keywords, the final decision logic: a pure
function of best_plp_relevance and found_related_pdp returning the
Decision and Justification strings of the source. -/
def synthesizeDecision (best_plp_relevance : Option String) (found_related_pdp : Bool) :
    String × String :=
  if best_plp_relevance = some "Loosely Related" then
    if found_related_pdp then
      ("Yes (Create *specific* category)",
       "Found \x27Loosely Related\x27 PLP and \x27Related\x27 products/pages, suggesting a more specific category is needed.")
    else
      ("No (Loose PLP is best for now)",
       "Found \x27Loosely Related\x27 PLP, but no specific \x27Related\x27 products/pages found to justify a new category.")
  else if best_plp_relevance = some "Unrelated" ∨ best_plp_relevance = none then
    if found_related_pdp then
      ("Yes (Create *new* category)",
       "No relevant PLP found, but \x27Related\x27 products/pages exist, justifying a new category.")
    else
      ("No (No relevant products/pages)",
       "No relevant PLPs or other pages related to the keyword were found.")
  else ("Error", "Unhandled case in final decision logic.")

/-- Per-keyword result record.  The first nine fields embed the
keyword_result dictionary of the source; the remaining fields are
verification instrumentation exposing the local evidence variables and
the provider call traces of that keyword run. -/
structure KeywordResult where
  Keyword : String
  SERP_Results_Found : Bool
  Initial_Classification : Buckets
  Known_PLP_Assessment : List (String × RawDict)
  Known_PDP_Assessment : List (String × RawDict)
  Unknown_URL_Assessment : List (String × RawDict)
  Decision : String
  Justification : String
  SERP_Raw_HTML_URL : Option String
  best_plp_relevance : Option String
  found_related_pdp : Bool
  found_closely_related_plp : Bool
  plp_calls : List String
  unknown_calls : List String
  pdp_calls : List String
deriving DecidableEq

/-- The relevance oracles of one run: presence of the SerpApi key, the
SerpApi outcome per keyword, and the Firecrawl outcome per keyword and
URL for each of the three prompts. -/
structure Oracles where
  serpKeyPresent : Bool
  serp : String → SerpResponse
  cat : String → String → FirecrawlOutcome
  unk : String → String → FirecrawlOutcome
  pdp : String → String → FirecrawlOutcome

/-- Stage 3 of a keyword run over its classification buckets. -/
def stage3 (O : Oracles) (keyword : String) (buckets : Buckets) : PLPState :=
  plpLoop O.cat keyword plpInit buckets.knownPLP

/-- Stage 4 of a keyword run, continuing from the stage 3 evidence. -/
def stage4 (O : Oracles) (keyword : String) (buckets : Buckets) : UnkState :=
  unkLoop O.unk keyword (unkInit (stage3 O keyword buckets)) buckets.unknown

/-- Stage 5 of a keyword run, continuing from the stage 4 evidence. -/
def stage5 (O : Oracles) (keyword : String) (buckets : Buckets) : PDPState :=
  pdpLoop O.pdp keyword (pdpInit (stage4 O keyword buckets).found_related_pdp) buckets.knownPDP

/-- Processing of one keyword after a successful unpack of the fetch
result: stages 2 to 6 of analyze_keywords.  The source guards each
assessment loop with a non-empty bucket check; a loop over an empty
bucket leaves its state unchanged, so the guard is behaviour
preserving and omitted. -/
def processRows (O : Oracles) (known_plps_list : List String) (keyword : String)
    (serp_html_url : Option String) (serp_df : List RankedRow) : KeywordResult :=
  if serp_df.isEmpty then
    { Keyword := keyword, SERP_Results_Found := false,
      Initial_Classification := emptyBuckets,
      Known_PLP_Assessment := [], Known_PDP_Assessment := [], Unknown_URL_Assessment := [],
      Decision := "No (Irrelevant)",
      Justification := "No organic results found for this keyword on the target site.",
      SERP_Raw_HTML_URL := serp_html_url,
      best_plp_relevance := none, found_related_pdp := false,
      found_closely_related_plp := false,
      plp_calls := [], unknown_calls := [], pdp_calls := [] }
  else
    let buckets := classifyBuckets (serp_df.map fun row => row.2.1) known_plps_list
    let s3 := stage3 O keyword buckets
    if s3.found_closely then
      { Keyword := keyword, SERP_Results_Found := true,
        Initial_Classification := buckets,
        Known_PLP_Assessment := s3.assessments,
        Known_PDP_Assessment := [], Unknown_URL_Assessment := [],
        Decision := "No (Existing page sufficient)",
        Justification := "A \x27Closely Related\x27 Known PLP was found in SERP.",
        SERP_Raw_HTML_URL := serp_html_url,
        best_plp_relevance := s3.best, found_related_pdp := false,
        found_closely_related_plp := true,
        plp_calls := s3.calls, unknown_calls := [], pdp_calls := [] }
    else
      let s4 := stage4 O keyword buckets
      if s4.found_closely then
        { Keyword := keyword, SERP_Results_Found := true,
          Initial_Classification := buckets,
          Known_PLP_Assessment := s3.assessments,
          Known_PDP_Assessment := [], Unknown_URL_Assessment := s4.assessments,
          Decision := "No (Existing page sufficient)",
          Justification := "AI identified a \x27Closely Related\x27 PLP or Brand Page in SERP.",
          SERP_Raw_HTML_URL := serp_html_url,
          best_plp_relevance := s4.best, found_related_pdp := s4.found_related_pdp,
          found_closely_related_plp := true,
          plp_calls := s3.calls, unknown_calls := s4.calls, pdp_calls := [] }
      else
        let s5 := stage5 O keyword buckets
        let dj := synthesizeDecision s4.best s5.found_related_pdp
        { Keyword := keyword, SERP_Results_Found := true,
          Initial_Classification := buckets,
          Known_PLP_Assessment := s3.assessments,
          Known_PDP_Assessment := s5.assessments, Unknown_URL_Assessment := s4.assessments,
          Decision := dj.1, Justification := dj.2,
          SERP_Raw_HTML_URL := serp_html_url,
          best_plp_relevance := s4.best, found_related_pdp := s5.found_related_pdp,
          found_closely_related_plp := false,
          plp_calls := s3.calls, unknown_calls := s4.calls, pdp_calls := s5.calls }

/-- Processing of one keyword, starting with the fetch stage.  The
two-variable unpacking of the get_organic_results value can raise, and
analyze_keywords has no exception handler around it. -/
def processKeyword (O : Oracles) (known_plps_list : List String) (keyword : String) :
    Except PyError KeywordResult :=
  match unpack2 (get_organic_results O.serpKeyPresent (O.serp keyword)) with
  | Except.error e => Except.error e
  | Except.ok (serp_html_url, serp_df) =>
    Except.ok (processRows O known_plps_list keyword serp_html_url serp_df)

/-- Embedding of analyze_keywords from src/main_analyzer.py: keywords
are processed in order and an uncaught exception aborts the whole
batch. -/
def analyze_keywords (O : Oracles) (keywords : List String) (known_plps_list : List String) :
    Except PyError (List KeywordResult) :=
  match keywords with
  | [] => Except.ok []
  | keyword :: rest =>
    match processKeyword O known_plps_list keyword with
    | Except.error e => Except.error e
    | Except.ok r =>
      match analyze_keywords O rest known_plps_list with
      | Except.error e => Except.error e
      | Except.ok rs => Except.ok (r :: rs)

/-- The invariant of claim C7 relating the closely-related flag to the
best listing relevance. -/
def invCR (found_closely : Bool) (best : Option String) : Prop :=
  found_closely = true ↔ best = some "Closely Related"

/-- Strengthened invariant holding before any break of the stage 3
loop: the flag is still down and nothing Closely Related was
recorded. -/
def plpSafe (st : PLPState) : Prop :=
  st.found_closely = false ∧ st.best ≠ some "Closely Related"

/-- Strengthened invariant holding before any break of the stage 4
loop. -/
def unkSafe (st : UnkState) : Prop :=
  st.found_closely = false ∧ st.best ≠ some "Closely Related"

-- Theorems.

/-- C1: the fetch stage does not fail closed on a provider transport
error.  get_organic_results itself catches the error and returns no
raw-artifact reference with an empty result list, but it does so with
a 3-tuple while the success path returns a 2-tuple; unpacking it into
two variables in analyze_keywords raises ValueError, so the exception
escapes the fetch stage, the keyword reaches no terminal Decision and
the batch terminates.  The claim is therefore violated by the code. -/
theorem c1_serp_transport_error_crashes :
    get_organic_results true SerpResponse.requestException = PyRet.triple none [] none ∧
    processKeyword
      { serpKeyPresent := true, serp := fun _ => SerpResponse.requestException,
        cat := fun _ _ => FirecrawlOutcome.exn, unk := fun _ _ => FirecrawlOutcome.exn,
        pdp := fun _ _ => FirecrawlOutcome.exn } [] "lamp"
      = Except.error PyError.valueErrorTooManyValues :=
  ⟨rfl, rfl⟩

/-- C2: a keyword whose search call fails yields zero KeywordResults
instead of exactly one Error decision: the batch aborts with a
ValueError before any record for the keyword is appended, and a record
already produced for an earlier keyword is lost with it. -/
theorem c2_serp_failure_yields_no_result :
    analyze_keywords
      { serpKeyPresent := true, serp := fun _ => SerpResponse.requestException,
        cat := fun _ _ => FirecrawlOutcome.exn, unk := fun _ _ => FirecrawlOutcome.exn,
        pdp := fun _ _ => FirecrawlOutcome.exn } ["pendant light"] []
      = Except.error PyError.valueErrorTooManyValues ∧
    analyze_keywords
      { serpKeyPresent := true,
        serp := fun k => if k = "desk" then SerpResponse.ok none [] else SerpResponse.requestException,
        cat := fun _ _ => FirecrawlOutcome.exn, unk := fun _ _ => FirecrawlOutcome.exn,
        pdp := fun _ _ => FirecrawlOutcome.exn } ["desk", "pendant light"] []
      = Except.error PyError.valueErrorTooManyValues :=
  ⟨rfl, rfl⟩

/-- C3: the homepage is not classified Irrelevant.  clean_url collapses
the root path to the empty string, producing the site root without a
trailing slash, while the homepage equality and the irrelevant prefix
entries in classify_url all carry the trailing slash; the homepage
therefore classifies as Unknown, lands in the Unknown bucket of the
classification stage, and is assessed by the provider instead of being
ignored. -/
theorem c3_homepage_classified_unknown :
    clean_url "https://www.fatshackvintage.com.au/" = some "https://www.fatshackvintage.com.au" ∧
    classify_url "https://www.fatshackvintage.com.au/" [] = "Unknown" ∧
    (classifyBuckets ["https://www.fatshackvintage.com.au/"] []).irrelevant = [] ∧
    (classifyBuckets ["https://www.fatshackvintage.com.au/"] []).unknown
      = ["https://www.fatshackvintage.com.au"] ∧
    (processKeyword
      { serpKeyPresent := true,
        serp := fun _ => SerpResponse.ok none
          [{ link := some "https://www.fatshackvintage.com.au/", snippet := none }],
        cat := fun _ _ => FirecrawlOutcome.exn, unk := fun _ _ => FirecrawlOutcome.exn,
        pdp := fun _ _ => FirecrawlOutcome.exn } [] "contact lenses").map
        (fun r => r.unknown_calls)
      = Except.ok ["https://www.fatshackvintage.com.au"] :=
  ⟨rfl, rfl, rfl, rfl, rfl⟩

/-- C6: the Synthesize stage is the pure function synthesizeDecision
of the pair of best listing relevance and related-detail flag; its
decision table matches the claim row by row, including the Error
decision for a Closely Related value reaching the stage. -/
theorem c6_synthesize_table :
    (synthesizeDecision (some "Loosely Related") true).1 = "Yes (Create *specific* category)" ∧
    (synthesizeDecision (some "Loosely Related") false).1 = "No (Loose PLP is best for now)" ∧
    (synthesizeDecision (some "Unrelated") true).1 = "Yes (Create *new* category)" ∧
    (synthesizeDecision none true).1 = "Yes (Create *new* category)" ∧
    (synthesizeDecision (some "Unrelated") false).1 = "No (No relevant products/pages)" ∧
    (synthesizeDecision none false).1 = "No (No relevant products/pages)" ∧
    ∀ found_related_pdp : Bool,
      (synthesizeDecision (some "Closely Related") found_related_pdp).1 = "Error" :=
  ⟨rfl, rfl, rfl, rfl, rfl, rfl, fun _ => rfl⟩

/-- C10: the combined unknown-URL assessment validates the relevance
value only against the union of both scales, so cross-scale responses
(a PDP with Closely Related, a PLP with Related) are accepted as
successful assessments; the evidence update of the pipeline then
silently ignores them: a PDP-typed result never changes the best
listing relevance or the closely-related flag, and a PLP or Brand Page
typed result never changes the related-detail flag. -/
theorem c10_cross_scale_accepted :
    classify_and_assess_url
        (some [("determined_type", "PDP"), ("relevance", "Closely Related"), ("analysis", "a")])
      = some [("determined_type", "PDP"), ("relevance", "Closely Related"), ("analysis", "a")] ∧
    classify_and_assess_url
        (some [("determined_type", "PLP"), ("relevance", "Related"), ("analysis", "a")])
      = some [("determined_type", "PLP"), ("relevance", "Related"), ("analysis", "a")] ∧
    (∀ (st : UnkState) (url : String) (d : RawDict),
      dictGet d "determined_type" = some "PDP" →
        (unkStep st url (some d)).best = st.best ∧
        (unkStep st url (some d)).found_closely = st.found_closely) ∧
    (∀ (st : UnkState) (url : String) (d : RawDict),
      (dictGet d "determined_type" = some "PLP" ∨ dictGet d "determined_type" = some "Brand Page") →
        (unkStep st url (some d)).found_related_pdp = st.found_related_pdp) := by
  refine ⟨rfl, rfl, ?_, ?_⟩
  · intro st url d h
    simp only [unkStep, h]
    rw [if_neg (by simp)]
    split_ifs <;> exact ⟨rfl, rfl⟩
  · intro st url d h
    simp only [unkStep]
    rw [if_pos h]
    split_ifs <;> rfl

/-- Witness for C10 at concrete states and payloads. -/
theorem c10_cross_scale_accepted_witness :
    (unkStep ⟨[], [], [], false, some "Loosely Related", false, []⟩ "u"
        (some [("determined_type", "PDP"), ("relevance", "Closely Related"), ("analysis", "a")])).best
      = some "Loosely Related" ∧
    (unkStep ⟨[], [], [], false, none, false, []⟩ "u"
        (some [("determined_type", "PLP"), ("relevance", "Related"), ("analysis", "a")])).found_related_pdp
      = false :=
  ⟨(c10_cross_scale_accepted.2.2.1 ⟨[], [], [], false, some "Loosely Related", false, []⟩ "u"
      [("determined_type", "PDP"), ("relevance", "Closely Related"), ("analysis", "a")] rfl).1,
   c10_cross_scale_accepted.2.2.2 ⟨[], [], [], false, none, false, []⟩ "u"
      [("determined_type", "PLP"), ("relevance", "Related"), ("analysis", "a")] (Or.inl rfl)⟩

set_option maxHeartbeats 1600000 in
/-- C4: the URL classifier is a pure total function on the cleaned URL
evaluated in the fixed precedence order Irrelevant, Known PLP, Known
PDP, Unknown with first match winning: the result is Known PLP exactly
when the URL is not Irrelevant and is verbatim in the supplied known
listing set or starts with a configured listing path prefix without
containing both a collections segment and a products segment; the
result is Known PDP exactly when no earlier case matched and the URL
starts with the configured detail path prefix or contains a products
segment anywhere; otherwise the result is Unknown. -/
theorem c4_classifier_precedence (c : String) (known : List String) :
    (classifyCleaned c known = "Known PLP" ↔
      classifyCleaned c known ≠ "Irrelevant" ∧
        (c ∈ known ∨
          ((KNOWN_PLP_PATHS.any fun path => strStartsWith c path) = true ∧
            ¬(strHasSub c "/collections/" = true ∧ strHasSub c "/products/" = true)))) ∧
    (classifyCleaned c known = "Known PDP" ↔
      classifyCleaned c known ≠ "Irrelevant" ∧
        ¬(c ∈ known ∨
          ((KNOWN_PLP_PATHS.any fun path => strStartsWith c path) = true ∧
            ¬(strHasSub c "/collections/" = true ∧ strHasSub c "/products/" = true))) ∧
        ((KNOWN_PDP_PATHS.any fun path => strStartsWith c path) = true ∨
          strHasSub c "/products/" = true)) ∧
    (classifyCleaned c known = "Unknown" ↔
      classifyCleaned c known ≠ "Irrelevant" ∧
        ¬(c ∈ known ∨
          ((KNOWN_PLP_PATHS.any fun path => strStartsWith c path) = true ∧
            ¬(strHasSub c "/collections/" = true ∧ strHasSub c "/products/" = true))) ∧
        ¬((KNOWN_PDP_PATHS.any fun path => strStartsWith c path) = true ∨
          strHasSub c "/products/" = true)) := by
  unfold classifyCleaned classifyNonIrrelevant
  by_cases hE : c ∈ known <;>
  by_cases hA : (KNOWN_PLP_PATHS.any fun path => strStartsWith c path) = true <;>
  by_cases h1 : strHasSub c "/collections/" = true <;>
  by_cases h2 : strHasSub c "/products/" = true <;>
  by_cases hD : (KNOWN_PDP_PATHS.any fun path => strStartsWith c path) = true <;>
  split_ifs <;>
  simp_all

/-- Witness for C4: a product URL is never a Known PLP. -/
theorem c4_classifier_precedence_witness :
    classifyCleaned "https://www.fatshackvintage.com.au/products/red-lamp" [] ≠ "Known PLP" := by
  intro hc
  rcases (c4_classifier_precedence "https://www.fatshackvintage.com.au/products/red-lamp" []).1.mp hc
    with ⟨-, hl⟩
  exact absurd hl (by decide)

theorem urlunparse_ne_nil (sch net pa : List Char) (h : sch ≠ []) :
    urlunparseL { scheme := sch, netloc := net, path := pa, query := [], fragment := [] } ≠ [] := by
  unfold urlunparseL
  split_ifs <;> simp_all [List.append_eq_nil]

theorem clean_url_some_ne_empty (u : String) : ∃ c, clean_url u = some c ∧ c ≠ "" := by
  refine ⟨_, rfl, fun hc => ?_⟩
  have h2 := congrArg String.data hc
  refine urlunparse_ne_nil _ _ _ ?_ h2
  split_ifs with hs
  · exact hs
  · decide

theorem mem_bucketsAll_insert (b : Buckets) (ty u x : String) :
    x ∈ bucketsAll (bucketsInsert b ty u) ↔ x ∈ bucketsAll b ∨ x = u := by
  unfold bucketsInsert bucketsAll
  split_ifs <;> simp [List.mem_append] <;> tauto

theorem bucketsInsert_perm (b : Buckets) (ty u : String) :
    List.Perm (bucketsAll (bucketsInsert b ty u)) (u :: bucketsAll b) := by
  unfold bucketsInsert bucketsAll
  split_ifs <;> simp only [List.append_assoc, List.singleton_append]
  · exact List.perm_middle
  · exact ((List.perm_middle).append_left _).trans List.perm_middle
  · exact ((((List.perm_middle).append_left _).trans List.perm_middle).append_left _).trans
      List.perm_middle
  · exact ((((((List.perm_append_singleton u _).append_left _).trans
      List.perm_middle).append_left _).trans List.perm_middle).append_left _).trans
      List.perm_middle

theorem nodup_bucketsAll_insert (b : Buckets) (ty u : String)
    (h : (bucketsAll b).Nodup) (hu : u ∉ bucketsAll b) :
    (bucketsAll (bucketsInsert b ty u)).Nodup := by
  rw [List.Perm.nodup_iff (bucketsInsert_perm b ty u)]
  exact List.nodup_cons.mpr ⟨hu, h⟩

theorem classifyLoop_mem (known : List String) :
    ∀ (urls : List String) (b : Buckets) (x : String),
      x ∈ bucketsAll (classifyLoop known urls b) ↔
        x ∈ bucketsAll b ∨ ∃ v ∈ urls, clean_url v = some x := by
  intro urls
  induction urls with
  | nil => intro b x; simp [classifyLoop]
  | cons u rest ih =>
    intro b x
    obtain ⟨c, hc, hcne⟩ := clean_url_some_ne_empty u
    simp only [classifyLoop, hc]
    rw [if_neg hcne]
    have hux : (∃ v ∈ u :: rest, clean_url v = some x) ↔
        (c = x ∨ ∃ v ∈ rest, clean_url v = some x) := by
      constructor
      · rintro ⟨v, hv, hvx⟩
        rcases List.mem_cons.mp hv with rfl | hv
        · left; rw [hc] at hvx; exact Option.some.inj hvx
        · right; exact ⟨v, hv, hvx⟩
      · rintro (rfl | ⟨v, hv, hvx⟩)
        · exact ⟨u, List.mem_cons_self u rest, hc⟩
        · exact ⟨v, List.mem_cons_of_mem u hv, hvx⟩
    by_cases hmem : c ∈ bucketsAll b
    · rw [if_pos hmem, ih b x, hux]
      constructor
      · rintro (hx | hx)
        · exact Or.inl hx
        · exact Or.inr (Or.inr hx)
      · rintro (hx | rfl | hx)
        · exact Or.inl hx
        · exact Or.inl hmem
        · exact Or.inr hx
    · rw [if_neg hmem, ih _ x, mem_bucketsAll_insert, hux]
      constructor
      · rintro ((hx | rfl) | hx)
        · exact Or.inl hx
        · exact Or.inr (Or.inl rfl)
        · exact Or.inr (Or.inr hx)
      · rintro (hx | rfl | hx)
        · exact Or.inl (Or.inl hx)
        · exact Or.inl (Or.inr rfl)
        · exact Or.inr hx

theorem classifyLoop_nodup (known : List String) :
    ∀ (urls : List String) (b : Buckets),
      (bucketsAll b).Nodup → (bucketsAll (classifyLoop known urls b)).Nodup := by
  intro urls
  induction urls with
  | nil => intro b h; simpa [classifyLoop] using h
  | cons u rest ih =>
    intro b h
    obtain ⟨c, hc, hcne⟩ := clean_url_some_ne_empty u
    simp only [classifyLoop, hc]
    rw [if_neg hcne]
    by_cases hmem : c ∈ bucketsAll b
    · rw [if_pos hmem]; exact ih b h
    · rw [if_neg hmem]; exact ih _ (nodup_bucketsAll_insert _ _ _ h hmem)

/-- C8: the Classify stage partitions the cleaned ranked URLs: the
concatenation of the four buckets has no duplicates (so no URL sits in
two buckets and a URL ranked twice is placed once), the cleaned form of
every ranked URL appears in some bucket, and every bucketed URL is the
cleaned form of some ranked URL. -/
theorem c8_partition (urls known : List String) :
    (bucketsAll (classifyBuckets urls known)).Nodup ∧
    (∀ u ∈ urls, ∃ c, clean_url u = some c ∧ c ∈ bucketsAll (classifyBuckets urls known)) ∧
    (∀ x ∈ bucketsAll (classifyBuckets urls known), ∃ u ∈ urls, clean_url u = some x) := by
  refine ⟨?_, ?_, ?_⟩
  · exact classifyLoop_nodup known urls emptyBuckets (by simp [bucketsAll, emptyBuckets])
  · intro u hu
    obtain ⟨c, hc, -⟩ := clean_url_some_ne_empty u
    exact ⟨c, hc, (classifyLoop_mem known urls emptyBuckets c).mpr (Or.inr ⟨u, hu, hc⟩)⟩
  · intro x hx
    rcases (classifyLoop_mem known urls emptyBuckets x).mp hx with h | h
    · simp [bucketsAll, emptyBuckets] at h
    · exact h

/-- Witness for C8 on a concrete ranking with a duplicate cleaned
URL. -/
theorem c8_partition_witness :
    ("https://www.fatshackvintage.com.au" : String) ∈
      bucketsAll (classifyBuckets
        ["https://www.fatshackvintage.com.au/", "https://www.fatshackvintage.com.au/#main"] []) ∧
    (bucketsAll (classifyBuckets
        ["https://www.fatshackvintage.com.au/", "https://www.fatshackvintage.com.au/#main"] [])).Nodup := by
  have h := c8_partition
    ["https://www.fatshackvintage.com.au/", "https://www.fatshackvintage.com.au/#main"] []
  obtain ⟨c, hc, hmem⟩ := h.2.1 "https://www.fatshackvintage.com.au/" (by simp)
  have hc2 : c = "https://www.fatshackvintage.com.au" :=
    (Option.some.inj ((rfl :
      clean_url "https://www.fatshackvintage.com.au/"
        = some "https://www.fatshackvintage.com.au").symm.trans hc)).symm
  subst hc2
  exact ⟨hmem, h.1⟩

theorem plpStep_calls (st : PLPState) (url : String) (r : Option RawDict) :
    (plpStep st url r).calls = st.calls := by
  unfold plpStep
  cases r <;> dsimp only <;> split_ifs <;> rfl

theorem plpIter_calls (oc : String → String → FirecrawlOutcome) (kw : String)
    (st : PLPState) (url : String) :
    (plpIter oc kw st url).calls = st.calls ++ [url] := by
  unfold plpIter
  rw [plpStep_calls]

theorem foldl_plpIter_calls (oc : String → String → FirecrawlOutcome) (kw : String) :
    ∀ (l : List String) (st : PLPState), (l.foldl (plpIter oc kw) st).calls = st.calls ++ l := by
  intro l
  induction l with
  | nil => intro st; simp
  | cons u rest ih =>
    intro st
    simp [List.foldl_cons, ih, plpIter_calls, List.append_assoc]

theorem plpLoop_break_at (oc : String → String → FirecrawlOutcome) (kw : String) :
    ∀ (pre : List String) (st : PLPState) (u : String) (post : List String),
      (∀ v ∈ pre, plpBreak (plpResult oc kw v) = false) →
      plpBreak (plpResult oc kw u) = true →
      plpLoop oc kw st (pre ++ u :: post) = plpIter oc kw (pre.foldl (plpIter oc kw) st) u := by
  intro pre
  induction pre with
  | nil =>
    intro st u post _ hu
    simp [plpLoop, hu]
  | cons p rest ih =>
    intro st u post h hu
    have hp := h p (List.mem_cons_self p rest)
    simp only [List.cons_append, plpLoop, hp, Bool.false_eq_true, if_false, List.foldl_cons]
    exact ih _ u post (fun v hv => h v (List.mem_cons_of_mem p hv)) hu

theorem plpIter_break_found (oc : String → String → FirecrawlOutcome) (kw : String)
    (st : PLPState) (u : String) (hu : plpBreak (plpResult oc kw u) = true) :
    (plpIter oc kw st u).found_closely = true := by
  cases hcase : plpResult oc kw u with
  | none => rw [hcase] at hu; simp [plpBreak] at hu
  | some d =>
    rw [hcase] at hu
    simp only [plpBreak, beq_iff_eq] at hu
    unfold plpIter plpStep
    rw [hcase]
    simp [hu]

/-- C5: in the Known Listings stage, once the first Closely Related
verdict is produced the iteration stops: the provider is called only
for the preceding URLs and the hit itself, the terminal Decision is
the existing-page-sufficient one, and the Unknown, Known PDP and
Synthesize stages are skipped entirely (no calls, no assessments, and
the stage 3 exit record is final). -/
theorem c5_stage3_early_exit (O : Oracles) (K : List String) (kw : String)
    (rawOpt : Option String) (rows : List RankedRow) (pre post : List String) (u : String)
    (hserp : get_organic_results O.serpKeyPresent (O.serp kw) = PyRet.pair rawOpt rows)
    (hrows : rows ≠ [])
    (hbucket : (classifyBuckets (rows.map fun row => row.2.1) K).knownPLP = pre ++ u :: post)
    (hpre : ∀ v ∈ pre, plpBreak (plpResult O.cat kw v) = false)
    (hu : plpBreak (plpResult O.cat kw u) = true) :
    ∃ r, processKeyword O K kw = Except.ok r ∧
      r.Decision = "No (Existing page sufficient)" ∧
      r.found_closely_related_plp = true ∧
      r.plp_calls = pre ++ [u] ∧
      r.unknown_calls = [] ∧ r.pdp_calls = [] ∧
      r.Unknown_URL_Assessment = [] ∧ r.Known_PDP_Assessment = [] := by
  have hs3 : stage3 O kw (classifyBuckets (rows.map fun row => row.2.1) K)
      = plpIter O.cat kw (pre.foldl (plpIter O.cat kw) plpInit) u := by
    unfold stage3
    rw [hbucket]
    exact plpLoop_break_at O.cat kw pre plpInit u post hpre hu
  have hfound : (stage3 O kw (classifyBuckets (rows.map fun row => row.2.1) K)).found_closely
      = true := by
    rw [hs3]
    exact plpIter_break_found O.cat kw _ u hu
  have hempty : rows.isEmpty = false := by
    cases rows with
    | nil => exact absurd rfl hrows
    | cons a l => rfl
  have hrec : processRows O K kw rawOpt rows =
      { Keyword := kw, SERP_Results_Found := true,
        Initial_Classification := classifyBuckets (rows.map fun row => row.2.1) K,
        Known_PLP_Assessment :=
          (stage3 O kw (classifyBuckets (rows.map fun row => row.2.1) K)).assessments,
        Known_PDP_Assessment := [], Unknown_URL_Assessment := [],
        Decision := "No (Existing page sufficient)",
        Justification := "A \x27Closely Related\x27 Known PLP was found in SERP.",
        SERP_Raw_HTML_URL := rawOpt,
        best_plp_relevance :=
          (stage3 O kw (classifyBuckets (rows.map fun row => row.2.1) K)).best,
        found_related_pdp := false,
        found_closely_related_plp := true,
        plp_calls := (stage3 O kw (classifyBuckets (rows.map fun row => row.2.1) K)).calls,
        unknown_calls := [], pdp_calls := [] } := by
    unfold processRows
    simp only [hempty, Bool.false_eq_true, if_false, hfound, if_true]
  refine ⟨processRows O K kw rawOpt rows, by rw [processKeyword, hserp]; rfl, ?_, ?_, ?_, ?_, ?_, ?_, ?_⟩
  · rw [hrec]
  · rw [hrec]
  · rw [hrec]
    show (stage3 O kw (classifyBuckets (rows.map fun row => row.2.1) K)).calls = pre ++ [u]
    rw [hs3, plpIter_calls, foldl_plpIter_calls]
    simp [plpInit]
  · rw [hrec]
  · rw [hrec]
  · rw [hrec]
  · rw [hrec]

/-- Witness for C5: a two-listing SERP whose first Known PLP assesses
Closely Related. -/
theorem c5_stage3_early_exit_witness :
    ∃ r, processKeyword
        { serpKeyPresent := true,
          serp := fun _ => SerpResponse.ok none
            [{ link := some "https://www.fatshackvintage.com.au/shop-all/neon-signs/",
               snippet := none },
             { link := some "https://www.fatshackvintage.com.au/shop-all/lamps/",
               snippet := none }],
          cat := fun _ _ => FirecrawlOutcome.responseData false
            (some [("Relevant", "Closely Related"), ("Analysis", "a")]),
          unk := fun _ _ => FirecrawlOutcome.exn,
          pdp := fun _ _ => FirecrawlOutcome.exn } [] "neon signs" = Except.ok r ∧
      r.Decision = "No (Existing page sufficient)" ∧
      r.found_closely_related_plp = true ∧
      r.plp_calls = [] ++ ["https://www.fatshackvintage.com.au/shop-all/neon-signs/"] ∧
      r.unknown_calls = [] ∧ r.pdp_calls = [] ∧
      r.Unknown_URL_Assessment = [] ∧ r.Known_PDP_Assessment = [] :=
  c5_stage3_early_exit _ [] "neon signs" none
    [(1, "https://www.fatshackvintage.com.au/shop-all/neon-signs/", none),
     (2, "https://www.fatshackvintage.com.au/shop-all/lamps/", none)]
    [] ["https://www.fatshackvintage.com.au/shop-all/lamps/"]
    "https://www.fatshackvintage.com.au/shop-all/neon-signs/"
    rfl (by simp) rfl (by simp) rfl

theorem plpSafe_inv (st : PLPState) (hs : plpSafe st) : invCR st.found_closely st.best := by
  unfold invCR
  constructor
  · intro h
    rw [hs.1] at h
    exact absurd h (by simp)
  · intro h
    exact absurd h hs.2

theorem plpIter_no_break_safe (oc : String → String → FirecrawlOutcome) (kw : String)
    (st : PLPState) (u : String)
    (hb : plpBreak (plpResult oc kw u) = false) (hs : plpSafe st) :
    plpSafe (plpIter oc kw st u) := by
  obtain ⟨h1, h2⟩ := hs
  cases hcase : plpResult oc kw u with
  | none =>
    unfold plpIter plpStep
    rw [hcase]
    dsimp only
    split_ifs
    · exact ⟨h1, by simp⟩
    · exact ⟨h1, h2⟩
  | some d =>
    rw [hcase] at hb
    simp only [plpBreak, beq_eq_false_iff_ne, ne_eq] at hb
    unfold plpIter plpStep
    rw [hcase]
    dsimp only
    rw [if_neg hb]
    split_ifs
    · exact ⟨h1, by simp⟩
    · exact ⟨h1, by simp⟩
    · exact ⟨h1, h2⟩

theorem plpIter_break_inv (oc : String → String → FirecrawlOutcome) (kw : String)
    (st : PLPState) (u : String) (hu : plpBreak (plpResult oc kw u) = true) :
    invCR (plpIter oc kw st u).found_closely (plpIter oc kw st u).best := by
  cases hcase : plpResult oc kw u with
  | none => rw [hcase] at hu; simp [plpBreak] at hu
  | some d =>
    rw [hcase] at hu
    simp only [plpBreak, beq_iff_eq] at hu
    unfold plpIter plpStep
    rw [hcase]
    dsimp only
    rw [if_pos hu]
    exact ⟨fun _ => rfl, fun _ => rfl⟩

theorem plpStates_inv (oc : String → String → FirecrawlOutcome) (kw : String) :
    ∀ (l : List String) (st : PLPState), plpSafe st →
      ∀ x ∈ plpStates oc kw st l, invCR x.found_closely x.best := by
  intro l
  induction l with
  | nil => intro st _ x hx; simp [plpStates] at hx
  | cons u rest ih =>
    intro st hs x hx
    by_cases hb : plpBreak (plpResult oc kw u) = true
    · simp only [plpStates, hb, if_true] at hx
      have hx' := List.mem_singleton.mp hx
      subst hx'
      exact plpIter_break_inv oc kw st u hb
    · have hb' : plpBreak (plpResult oc kw u) = false := by
        revert hb; cases plpBreak (plpResult oc kw u) <;> simp
      simp only [plpStates, hb', Bool.false_eq_true, if_false] at hx
      rcases List.mem_cons.mp hx with rfl | hx
      · exact plpSafe_inv _ (plpIter_no_break_safe oc kw st u hb' hs)
      · exact ih _ (plpIter_no_break_safe oc kw st u hb' hs) x hx

theorem plpLoop_not_found_safe (oc : String → String → FirecrawlOutcome) (kw : String) :
    ∀ (l : List String) (st : PLPState), plpSafe st →
      (plpLoop oc kw st l).found_closely = false → plpSafe (plpLoop oc kw st l) := by
  intro l
  induction l with
  | nil => intro st hs _; exact hs
  | cons u rest ih =>
    intro st hs hnf
    by_cases hb : plpBreak (plpResult oc kw u) = true
    · exfalso
      have h1 : (plpLoop oc kw st (u :: rest)).found_closely = true := by
        simp only [plpLoop, hb, if_true]
        exact plpIter_break_found oc kw st u hb
      rw [hnf] at h1
      exact Bool.false_ne_true h1
    · have hb' : plpBreak (plpResult oc kw u) = false := by
        revert hb; cases plpBreak (plpResult oc kw u) <;> simp
      have hloop : plpLoop oc kw st (u :: rest) = plpLoop oc kw (plpIter oc kw st u) rest := by
        simp only [plpLoop, hb', Bool.false_eq_true, if_false]
      rw [hloop] at hnf ⊢
      exact ih _ (plpIter_no_break_safe oc kw st u hb' hs) hnf

theorem unkSafe_inv (st : UnkState) (hs : unkSafe st) : invCR st.found_closely st.best := by
  unfold invCR
  constructor
  · intro h
    rw [hs.1] at h
    exact absurd h (by simp)
  · intro h
    exact absurd h hs.2

theorem unkIter_no_break_safe (oc : String → String → FirecrawlOutcome) (kw : String)
    (st : UnkState) (u : String)
    (hb : unkBreak (unkResult oc kw u) = false) (hs : unkSafe st) :
    unkSafe (unkIter oc kw st u) := by
  obtain ⟨h1, h2⟩ := hs
  cases hcase : unkResult oc kw u with
  | none =>
    unfold unkIter unkStep
    rw [hcase]
    exact ⟨h1, h2⟩
  | some d =>
    rw [hcase] at hb
    simp only [unkBreak, Bool.and_eq_false_iff, Bool.or_eq_false_iff,
      beq_eq_false_iff_ne, ne_eq] at hb
    unfold unkIter unkStep
    rw [hcase]
    dsimp only
    split_ifs with ht hr hl hun hpdp hrel
    · exfalso
      rcases hb with ⟨hb1, hb2⟩ | hbr
      · rcases ht with ht | ht
        · exact hb1 ht
        · exact hb2 ht
      · exact hbr hr
    · exact ⟨h1, by simp⟩
    · exact ⟨h1, by simp⟩
    · exact ⟨h1, h2⟩
    · exact ⟨h1, h2⟩
    · exact ⟨h1, h2⟩
    · exact ⟨h1, h2⟩

theorem unkIter_break_inv (oc : String → String → FirecrawlOutcome) (kw : String)
    (st : UnkState) (u : String) (hu : unkBreak (unkResult oc kw u) = true) :
    invCR (unkIter oc kw st u).found_closely (unkIter oc kw st u).best := by
  cases hcase : unkResult oc kw u with
  | none => rw [hcase] at hu; simp [unkBreak] at hu
  | some d =>
    rw [hcase] at hu
    simp only [unkBreak, Bool.and_eq_true, Bool.or_eq_true, beq_iff_eq] at hu
    unfold unkIter unkStep
    rw [hcase]
    dsimp only
    rw [if_pos hu.1, if_pos hu.2]
    exact ⟨fun _ => rfl, fun _ => rfl⟩

theorem unkStates_inv (oc : String → String → FirecrawlOutcome) (kw : String) :
    ∀ (l : List String) (st : UnkState), unkSafe st →
      ∀ x ∈ unkStates oc kw st l, invCR x.found_closely x.best := by
  intro l
  induction l with
  | nil => intro st _ x hx; simp [unkStates] at hx
  | cons u rest ih =>
    intro st hs x hx
    by_cases hb : unkBreak (unkResult oc kw u) = true
    · simp only [unkStates, hb, if_true] at hx
      have hx' := List.mem_singleton.mp hx
      subst hx'
      exact unkIter_break_inv oc kw st u hb
    · have hb' : unkBreak (unkResult oc kw u) = false := by
        revert hb; cases unkBreak (unkResult oc kw u) <;> simp
      simp only [unkStates, hb', Bool.false_eq_true, if_false] at hx
      rcases List.mem_cons.mp hx with rfl | hx
      · exact unkSafe_inv _ (unkIter_no_break_safe oc kw st u hb' hs)
      · exact ih _ (unkIter_no_break_safe oc kw st u hb' hs) x hx

theorem plpLoop_eq_states_getLastD (oc : String → String → FirecrawlOutcome) (kw : String) :
    ∀ (l : List String) (st : PLPState),
      plpLoop oc kw st l = (plpStates oc kw st l).getLastD st := by
  intro l
  induction l with
  | nil => intro st; rfl
  | cons u rest ih =>
    intro st
    by_cases hb : plpBreak (plpResult oc kw u) = true
    · simp only [plpLoop, plpStates, hb, if_true, List.getLastD_cons, List.getLastD_nil]
    · have hb' : plpBreak (plpResult oc kw u) = false := by
        revert hb; cases plpBreak (plpResult oc kw u) <;> simp
      simp only [plpLoop, plpStates, hb', Bool.false_eq_true, if_false, List.getLastD_cons]
      exact ih (plpIter oc kw st u)

theorem unkLoop_eq_states_getLastD (oc : String → String → FirecrawlOutcome) (kw : String) :
    ∀ (l : List String) (st : UnkState),
      unkLoop oc kw st l = (unkStates oc kw st l).getLastD st := by
  intro l
  induction l with
  | nil => intro st; rfl
  | cons u rest ih =>
    intro st
    by_cases hb : unkBreak (unkResult oc kw u) = true
    · simp only [unkLoop, unkStates, hb, if_true, List.getLastD_cons, List.getLastD_nil]
    · have hb' : unkBreak (unkResult oc kw u) = false := by
        revert hb; cases unkBreak (unkResult oc kw u) <;> simp
      simp only [unkLoop, unkStates, hb', Bool.false_eq_true, if_false, List.getLastD_cons]
      exact ih (unkIter oc kw st u)

/-- C7: after every per-URL evidence update in the Known Listings and
Unknown URL stages, the flag found_closely_related_plp is true exactly
when best_plp_relevance is Closely Related: the invariant holds at the
initial state, at every intermediate state of the stage 3 loop started
from the initial state, and at every intermediate state of the stage 4
loop started from a stage 3 result that did not terminate. -/
theorem c7_closely_related_invariant :
    invCR plpInit.found_closely plpInit.best ∧
    (∀ (oc : String → String → FirecrawlOutcome) (kw : String) (l : List String),
      ∀ x ∈ plpStates oc kw plpInit l, invCR x.found_closely x.best) ∧
    (∀ (oc oc2 : String → String → FirecrawlOutcome) (kw : String) (l0 l1 : List String),
      (plpLoop oc kw plpInit l0).found_closely = false →
      ∀ x ∈ unkStates oc2 kw (unkInit (plpLoop oc kw plpInit l0)) l1,
        invCR x.found_closely x.best) := by
  have hinit : plpSafe plpInit := ⟨rfl, by simp [plpInit]⟩
  refine ⟨plpSafe_inv _ hinit, ?_, ?_⟩
  · intro oc kw l
    exact plpStates_inv oc kw l plpInit hinit
  · intro oc oc2 kw l0 l1 hnf
    have hsafe3 := plpLoop_not_found_safe oc kw l0 plpInit hinit hnf
    exact unkStates_inv oc2 kw l1 _ ⟨hnf, hsafe3.2⟩

/-- Witness for C7 at a concrete failing assessment. -/
theorem c7_closely_related_invariant_witness :
    invCR (plpIter (fun _ _ => FirecrawlOutcome.exn) "k" plpInit "u").found_closely
      (plpIter (fun _ _ => FirecrawlOutcome.exn) "k" plpInit "u").best :=
  c7_closely_related_invariant.2.1 (fun _ _ => FirecrawlOutcome.exn) "k" ["u"] _ (by decide)

theorem plpResult_exn (oc : String → String → FirecrawlOutcome) (kw u : String)
    (h : oc kw u = FirecrawlOutcome.exn) : plpResult oc kw u = none := by
  unfold plpResult
  rw [h]
  rfl

theorem unkResult_exn (oc : String → String → FirecrawlOutcome) (kw u : String)
    (h : oc kw u = FirecrawlOutcome.exn) : unkResult oc kw u = none := by
  unfold unkResult
  rw [h]
  rfl

theorem pdpResult_exn (oc : String → String → FirecrawlOutcome) (kw u : String)
    (h : oc kw u = FirecrawlOutcome.exn) : pdpResult oc kw u = none := by
  unfold pdpResult
  rw [h]
  rfl

theorem plpLoop_allfail (oc : String → String → FirecrawlOutcome) (kw : String) :
    ∀ (l : List String) (st : PLPState),
      (∀ v ∈ l, plpResult oc kw v = none) →
      (plpLoop oc kw st l).found_closely = st.found_closely ∧
      (plpLoop oc kw st l).best
        = (if l.isEmpty then st.best else if st.best = none then some "Unrelated" else st.best) ∧
      (plpLoop oc kw st l).assessments
        = st.assessments ++ l.map (fun v => (v, plpFailDict)) := by
  intro l
  induction l with
  | nil => intro st _; simp [plpLoop]
  | cons u rest ih =>
    intro st h
    have hu := h u (List.mem_cons_self u rest)
    have hbreak : plpBreak (plpResult oc kw u) = false := by rw [hu]; rfl
    have hiter : plpIter oc kw st u =
        { st with calls := st.calls ++ [u],
                  assessments := st.assessments ++ [(u, plpFailDict)],
                  best := if st.best = none then some "Unrelated" else st.best } := by
      unfold plpIter plpStep
      rw [hu]
      dsimp only
      split_ifs with hbest
      · rfl
      · rfl
    have hloop : plpLoop oc kw st (u :: rest) = plpLoop oc kw (plpIter oc kw st u) rest := by
      simp only [plpLoop, hbreak, Bool.false_eq_true, if_false]
    obtain ⟨ihf, ihb, iha⟩ := ih (plpIter oc kw st u) (fun v hv => h v (List.mem_cons_of_mem u hv))
    rw [hloop]
    refine ⟨?_, ?_, ?_⟩
    · rw [ihf, hiter]
    · rw [ihb, hiter]
      by_cases hb : st.best = none
      · simp [hb]
      · simp [hb]
    · rw [iha, hiter]
      simp [List.append_assoc]

theorem unkLoop_allfail (oc : String → String → FirecrawlOutcome) (kw : String) :
    ∀ (l : List String) (st : UnkState),
      (∀ v ∈ l, unkResult oc kw v = none) →
      (unkLoop oc kw st l).found_closely = st.found_closely ∧
      (unkLoop oc kw st l).best = st.best ∧
      (unkLoop oc kw st l).found_related_pdp = st.found_related_pdp ∧
      (unkLoop oc kw st l).assessments
        = st.assessments ++ l.map (fun v => (v, unkFailDict)) := by
  intro l
  induction l with
  | nil => intro st _; simp [unkLoop]
  | cons u rest ih =>
    intro st h
    have hu := h u (List.mem_cons_self u rest)
    have hbreak : unkBreak (unkResult oc kw u) = false := by rw [hu]; rfl
    have hiter : unkIter oc kw st u =
        { st with calls := st.calls ++ [u],
                  assessments := st.assessments ++ [(u, unkFailDict)] } := by
      unfold unkIter unkStep
      rw [hu]
    have hloop : unkLoop oc kw st (u :: rest) = unkLoop oc kw (unkIter oc kw st u) rest := by
      simp only [unkLoop, hbreak, Bool.false_eq_true, if_false]
    obtain ⟨ihf, ihb, ihr, iha⟩ :=
      ih (unkIter oc kw st u) (fun v hv => h v (List.mem_cons_of_mem u hv))
    rw [hloop]
    refine ⟨?_, ?_, ?_, ?_⟩
    · rw [ihf, hiter]
    · rw [ihb, hiter]
    · rw [ihr, hiter]
    · rw [iha, hiter]
      simp [List.append_assoc]

theorem pdpLoop_allfail (oc : String → String → FirecrawlOutcome) (kw : String) :
    ∀ (l : List String) (st : PDPState),
      (∀ v ∈ l, pdpResult oc kw v = none) →
      (pdpLoop oc kw st l).found_related_pdp = st.found_related_pdp ∧
      (pdpLoop oc kw st l).assessments
        = st.assessments ++ l.map (fun v => (v, pdpFailDict)) := by
  intro l
  induction l with
  | nil => intro st _; simp [pdpLoop]
  | cons u rest ih =>
    intro st h
    have hu := h u (List.mem_cons_self u rest)
    have hiter : pdpIter oc kw st u =
        { st with calls := st.calls ++ [u],
                  assessments := st.assessments ++ [(u, pdpFailDict)] } := by
      unfold pdpIter pdpStep
      rw [hu]
    obtain ⟨ihr, iha⟩ := ih (pdpIter oc kw st u) (fun v hv => h v (List.mem_cons_of_mem u hv))
    have hloop : pdpLoop oc kw st (u :: rest) = pdpLoop oc kw (pdpIter oc kw st u) rest := rfl
    rw [hloop]
    refine ⟨?_, ?_⟩
    · rw [ihr, hiter]
    · rw [iha, hiter]
      simp [List.append_assoc]

/-- C9 as amended: for a keyword with non-empty search results whose
relevance calls all fail with a transport error, the terminal Decision
is NoRelevantContent, the related-detail flag stays false, every
recorded assessment carries the failure marker of its stage, and the
best listing relevance is none when the Known PLP bucket is empty and
Unrelated otherwise (a stage 3 failure floors the running best at
Unrelated, so the evidence does not remain None as the claim
states). -/
theorem c9_amended_all_failures (O : Oracles) (K : List String) (kw : String)
    (rawOpt : Option String) (rows : List RankedRow)
    (hserp : get_organic_results O.serpKeyPresent (O.serp kw) = PyRet.pair rawOpt rows)
    (hrows : rows ≠ [])
    (hcat : ∀ v ∈ (classifyBuckets (rows.map fun row => row.2.1) K).knownPLP,
      O.cat kw v = FirecrawlOutcome.exn)
    (hunk : ∀ v ∈ (classifyBuckets (rows.map fun row => row.2.1) K).unknown,
      O.unk kw v = FirecrawlOutcome.exn)
    (hpdp : ∀ v ∈ (classifyBuckets (rows.map fun row => row.2.1) K).knownPDP,
      O.pdp kw v = FirecrawlOutcome.exn) :
    ∃ r, processKeyword O K kw = Except.ok r ∧
      r.Decision = "No (No relevant products/pages)" ∧
      r.found_related_pdp = false ∧
      r.best_plp_relevance
        = (if (classifyBuckets (rows.map fun row => row.2.1) K).knownPLP.isEmpty then none
           else some "Unrelated") ∧
      (∀ p ∈ r.Known_PLP_Assessment, p.2 = plpFailDict) ∧
      (∀ p ∈ r.Unknown_URL_Assessment, p.2 = unkFailDict) ∧
      (∀ p ∈ r.Known_PDP_Assessment, p.2 = pdpFailDict) := by
  have hempty : rows.isEmpty = false := by
    cases rows with
    | nil => exact absurd rfl hrows
    | cons a l => rfl
  obtain ⟨h3f, h3b, h3a⟩ :=
    plpLoop_allfail O.cat kw (classifyBuckets (rows.map fun row => row.2.1) K).knownPLP plpInit
      (fun v hv => plpResult_exn O.cat kw v (hcat v hv))
  have hs3 : stage3 O kw (classifyBuckets (rows.map fun row => row.2.1) K)
      = plpLoop O.cat kw plpInit (classifyBuckets (rows.map fun row => row.2.1) K).knownPLP := rfl
  have hfound3 : (stage3 O kw (classifyBuckets (rows.map fun row => row.2.1) K)).found_closely
      = false := by rw [hs3, h3f]; rfl
  obtain ⟨h4f, h4b, h4r, h4a⟩ :=
    unkLoop_allfail O.unk kw (classifyBuckets (rows.map fun row => row.2.1) K).unknown
      (unkInit (stage3 O kw (classifyBuckets (rows.map fun row => row.2.1) K)))
      (fun v hv => unkResult_exn O.unk kw v (hunk v hv))
  have hs4 : stage4 O kw (classifyBuckets (rows.map fun row => row.2.1) K)
      = unkLoop O.unk kw (unkInit (stage3 O kw (classifyBuckets (rows.map fun row => row.2.1) K)))
          (classifyBuckets (rows.map fun row => row.2.1) K).unknown := rfl
  have hfound4 : (stage4 O kw (classifyBuckets (rows.map fun row => row.2.1) K)).found_closely
      = false := by rw [hs4, h4f]; exact hfound3
  have hbest4 : (stage4 O kw (classifyBuckets (rows.map fun row => row.2.1) K)).best
      = (if (classifyBuckets (rows.map fun row => row.2.1) K).knownPLP.isEmpty then none
         else some "Unrelated") := by
    rw [hs4, h4b]
    show (stage3 O kw (classifyBuckets (rows.map fun row => row.2.1) K)).best = _
    rw [hs3, h3b]
    by_cases hB : (classifyBuckets (rows.map fun row => row.2.1) K).knownPLP.isEmpty <;>
      simp [hB, plpInit]
  have hrel4 : (stage4 O kw (classifyBuckets (rows.map fun row => row.2.1) K)).found_related_pdp
      = false := by rw [hs4, h4r]; rfl
  obtain ⟨h5r, h5a⟩ :=
    pdpLoop_allfail O.pdp kw (classifyBuckets (rows.map fun row => row.2.1) K).knownPDP
      (pdpInit (stage4 O kw (classifyBuckets (rows.map fun row => row.2.1) K)).found_related_pdp)
      (fun v hv => pdpResult_exn O.pdp kw v (hpdp v hv))
  have hs5 : stage5 O kw (classifyBuckets (rows.map fun row => row.2.1) K)
      = pdpLoop O.pdp kw
          (pdpInit (stage4 O kw (classifyBuckets (rows.map fun row => row.2.1) K)).found_related_pdp)
          (classifyBuckets (rows.map fun row => row.2.1) K).knownPDP := rfl
  have hrel5 : (stage5 O kw (classifyBuckets (rows.map fun row => row.2.1) K)).found_related_pdp
      = false := by rw [hs5, h5r]; exact hrel4
  have hdec : synthesizeDecision
      (stage4 O kw (classifyBuckets (rows.map fun row => row.2.1) K)).best
      (stage5 O kw (classifyBuckets (rows.map fun row => row.2.1) K)).found_related_pdp
      = ("No (No relevant products/pages)",
         "No relevant PLPs or other pages related to the keyword were found.") := by
    rw [hbest4, hrel5]
    by_cases hB : (classifyBuckets (rows.map fun row => row.2.1) K).knownPLP.isEmpty <;>
      simp [hB, synthesizeDecision]
  have hrec : processRows O K kw rawOpt rows =
      { Keyword := kw, SERP_Results_Found := true,
        Initial_Classification := classifyBuckets (rows.map fun row => row.2.1) K,
        Known_PLP_Assessment :=
          (stage3 O kw (classifyBuckets (rows.map fun row => row.2.1) K)).assessments,
        Known_PDP_Assessment :=
          (stage5 O kw (classifyBuckets (rows.map fun row => row.2.1) K)).assessments,
        Unknown_URL_Assessment :=
          (stage4 O kw (classifyBuckets (rows.map fun row => row.2.1) K)).assessments,
        Decision := (synthesizeDecision
          (stage4 O kw (classifyBuckets (rows.map fun row => row.2.1) K)).best
          (stage5 O kw (classifyBuckets (rows.map fun row => row.2.1) K)).found_related_pdp).1,
        Justification := (synthesizeDecision
          (stage4 O kw (classifyBuckets (rows.map fun row => row.2.1) K)).best
          (stage5 O kw (classifyBuckets (rows.map fun row => row.2.1) K)).found_related_pdp).2,
        SERP_Raw_HTML_URL := rawOpt,
        best_plp_relevance :=
          (stage4 O kw (classifyBuckets (rows.map fun row => row.2.1) K)).best,
        found_related_pdp :=
          (stage5 O kw (classifyBuckets (rows.map fun row => row.2.1) K)).found_related_pdp,
        found_closely_related_plp := false,
        plp_calls := (stage3 O kw (classifyBuckets (rows.map fun row => row.2.1) K)).calls,
        unknown_calls := (stage4 O kw (classifyBuckets (rows.map fun row => row.2.1) K)).calls,
        pdp_calls := (stage5 O kw (classifyBuckets (rows.map fun row => row.2.1) K)).calls } := by
    unfold processRows
    simp only [hempty, Bool.false_eq_true, if_false, hfound3, hfound4, if_true]
  refine ⟨processRows O K kw rawOpt rows, by rw [processKeyword, hserp]; rfl, ?_, ?_, ?_, ?_, ?_, ?_⟩
  · rw [hrec]
    show (synthesizeDecision _ _).1 = _
    rw [hdec]
  · rw [hrec]
    show (stage5 O kw (classifyBuckets (rows.map fun row => row.2.1) K)).found_related_pdp = false
    exact hrel5
  · rw [hrec]
    show (stage4 O kw (classifyBuckets (rows.map fun row => row.2.1) K)).best = _
    exact hbest4
  · rw [hrec]
    show ∀ p ∈ (stage3 O kw (classifyBuckets (rows.map fun row => row.2.1) K)).assessments,
      p.2 = plpFailDict
    rw [hs3, h3a]
    intro p hp
    simp only [plpInit, List.nil_append] at hp
    obtain ⟨v, -, rfl⟩ := List.mem_map.mp hp
    rfl
  · rw [hrec]
    show ∀ p ∈ (stage4 O kw (classifyBuckets (rows.map fun row => row.2.1) K)).assessments,
      p.2 = unkFailDict
    rw [hs4, h4a]
    intro p hp
    simp only [unkInit, List.nil_append] at hp
    obtain ⟨v, -, rfl⟩ := List.mem_map.mp hp
    rfl
  · rw [hrec]
    show ∀ p ∈ (stage5 O kw (classifyBuckets (rows.map fun row => row.2.1) K)).assessments,
      p.2 = pdpFailDict
    rw [hs5, h5a]
    intro p hp
    simp only [pdpInit, List.nil_append] at hp
    obtain ⟨v, -, rfl⟩ := List.mem_map.mp hp
    rfl

/-- Counterexample to C9 as stated: with one Known PLP ranking URL and
every provider call failing with a transport error, the evidence at
Synthesize has best listing relevance Unrelated, not None. -/
theorem c9_counterexample_best_not_none :
    (processKeyword
      { serpKeyPresent := true,
        serp := fun _ => SerpResponse.ok none
          [{ link := some "https://www.fatshackvintage.com.au/shop-all/neon-signs/",
             snippet := none }],
        cat := fun _ _ => FirecrawlOutcome.exn,
        unk := fun _ _ => FirecrawlOutcome.exn,
        pdp := fun _ _ => FirecrawlOutcome.exn } [] "lamp").map
      (fun r => r.best_plp_relevance) = Except.ok (some "Unrelated") ∧
    (Except.ok (some "Unrelated") : Except PyError (Option String)) ≠ Except.ok none :=
  ⟨rfl, by simp⟩

/-- Witness for the amended C9 on a three-URL SERP covering all three
assessment stages. -/
theorem c9_amended_all_failures_witness :
    ∃ r, processKeyword
        { serpKeyPresent := true,
          serp := fun _ => SerpResponse.ok (some "raw")
            [{ link := some "https://www.fatshackvintage.com.au/shop-all/neon-signs/",
               snippet := none },
             { link := some "https://www.fatshackvintage.com.au/blog/ideas", snippet := none },
             { link := some "https://www.fatshackvintage.com.au/products/red-lamp",
               snippet := none }],
          cat := fun _ _ => FirecrawlOutcome.exn,
          unk := fun _ _ => FirecrawlOutcome.exn,
          pdp := fun _ _ => FirecrawlOutcome.exn } [] "lamp" = Except.ok r ∧
      r.Decision = "No (No relevant products/pages)" ∧
      r.found_related_pdp = false ∧
      r.best_plp_relevance
        = (if (classifyBuckets
              ([((1 : Nat), "https://www.fatshackvintage.com.au/shop-all/neon-signs/",
                  (none : Option String)),
                (2, "https://www.fatshackvintage.com.au/blog/ideas", none),
                (3, "https://www.fatshackvintage.com.au/products/red-lamp", none)].map
                fun row => row.2.1) []).knownPLP.isEmpty then none
           else some "Unrelated") ∧
      (∀ p ∈ r.Known_PLP_Assessment, p.2 = plpFailDict) ∧
      (∀ p ∈ r.Unknown_URL_Assessment, p.2 = unkFailDict) ∧
      (∀ p ∈ r.Known_PDP_Assessment, p.2 = pdpFailDict) :=
  c9_amended_all_failures _ [] "lamp" (some "raw")
    [(1, "https://www.fatshackvintage.com.au/shop-all/neon-signs/", none),
     (2, "https://www.fatshackvintage.com.au/blog/ideas", none),
     (3, "https://www.fatshackvintage.com.au/products/red-lamp", none)]
    rfl (by simp) (fun _ _ => rfl) (fun _ _ => rfl) (fun _ _ => rfl)

/-- Witness for C6 at the invariant-violation row. -/
theorem c6_synthesize_table_witness :
    (synthesizeDecision (some "Closely Related") true).1 = "Error" :=
  c6_synthesize_table.2.2.2.2.2.2 true
